import Mathlib

/-!
Shallow embedding of the command storage / dispatch module
(vimiv/commands/commands.py) of the vimiv-qt excerpt.

Python strings are modelled as Lean `String`; Python string methods that
the module uses (`strip`, `split`, `join`, `capitalize`, `lower`,
`replace`) are translated as executable helpers below.  The standard
library pieces the module leans on (`shlex.split`, the relevant subset of
`argparse`) are modelled faithfully for the inputs the module can produce.
-/

namespace Vimiv

/-- Python `s.startswith(p)`, by characters. -/
def strStartsWith (s p : String) : Bool := p.data.isPrefixOf s.data

/-- Python slicing `s[n:]`, by characters. -/
def strDrop (s : String) (n : Nat) : String := String.mk (s.data.drop n)

/-- Apply a character mapping to a string. -/
def charMap (f : Char → Char) (s : String) : String := String.mk (s.data.map f)

/-- Helper for `splitOnChar`: `cur` is the segment being built. -/
def splitOnCharAux (sep : Char) : List Char → String → List String
  | [], cur => [cur]
  | c :: rest, cur =>
    if c = sep then cur :: splitOnCharAux sep rest ""
    else splitOnCharAux sep rest (cur.push c)

/-- Python `s.split(sep)` for a one-character separator: split on every
occurrence, keeping empty segments. -/
def splitOnChar (sep : Char) (s : String) : List String :=
  splitOnCharAux sep s.data ""

/-- Whitespace characters: the set used by `shlex` and by `str.split()` /
`str.strip()` for the ASCII inputs this module handles. -/
def isPyWhitespace (c : Char) : Bool :=
  c = ' ' || c = '\t' || c = '\n' || c = '\x0d' || c = '\x0b' || c = '\x0c'

/-- Python `str.strip()`: remove leading and trailing whitespace. -/
def pyStrip (s : String) : String :=
  String.mk (((s.data.dropWhile isPyWhitespace).reverse.dropWhile isPyWhitespace).reverse)

/-- Helper for `pySplitWs`: walk the characters, building the current word
(`cur`) and accumulating finished words (reversed) in `acc`. -/
def pyWordsAux : List Char → Option String → List String → List String
  | [], none, acc => acc.reverse
  | [], some w, acc => (w :: acc).reverse
  | c :: rest, cur, acc =>
    if isPyWhitespace c then
      match cur with
      | none => pyWordsAux rest none acc
      | some w => pyWordsAux rest none (w :: acc)
    else
      pyWordsAux rest (some ((cur.getD "").push c)) acc

/-- Python `str.split()` with no separator: split on runs of whitespace,
discarding empty strings. -/
def pySplitWs (s : String) : List String :=
  pyWordsAux s.data none []

/-- Python `str.capitalize()`: first character uppercased, all remaining
characters lowercased. -/
def pyCapitalize (s : String) : String :=
  match s.data with
  | [] => ""
  | c :: cs => String.mk (c.toUpper :: cs.map Char.toLower)

/-- Python exceptions that can flow through the module.  `systemExit` is
raised by the argparse help action (after printing the help text), with
its exit code; like `indexError` and `valueError` it is not caught by the
dispatcher. -/
inductive PyExc where
  | argumentError (msg : String)
  | commandError (msg : String)
  | commandWarning (msg : String)
  | indexError
  | valueError (msg : String)
  | systemExit (code : Nat)
  | other (msg : String)
deriving DecidableEq

/-- The run method catches exactly `CommandError`, `ArgumentError` and
`CommandWarning` (commands.py lines 61-65); everything else propagates. -/
def isCaught : PyExc → Bool
  | .argumentError _ => true
  | .commandError _ => true
  | .commandWarning _ => true
  | _ => false

/-- Lexer mode for the model of `shlex.split` (POSIX mode): outside quotes,
inside single quotes, inside double quotes. -/
inductive SMode where
  | normal
  | single
  | double
deriving DecidableEq

/-- Model of POSIX `shlex.split`, as used by `run` (commands.py line 51):
whitespace separates tokens, single quotes group literally, double quotes
group with backslash escaping of a double quote or backslash, a backslash
outside quotes escapes the next character.  An unterminated quote raises
`ValueError` with the message No closing quotation, a trailing escape
character raises `ValueError` with the message No escaped character. -/
def shlexCore : List Char → SMode → Option String → List String → Except String (List String)
  | [], .normal, none, acc => .ok acc.reverse
  | [], .normal, some w, acc => .ok (w :: acc).reverse
  | [], .single, _, _ => .error "No closing quotation"
  | [], .double, _, _ => .error "No closing quotation"
  | c :: rest, .normal, cur, acc =>
    if isPyWhitespace c then
      match cur with
      | none => shlexCore rest .normal none acc
      | some w => shlexCore rest .normal none (w :: acc)
    else if c = '\'' then
      shlexCore rest .single (some (cur.getD "")) acc
    else if c = '"' then
      shlexCore rest .double (some (cur.getD "")) acc
    else if c = '\\' then
      match rest with
      | [] => .error "No escaped character"
      | d :: rest2 => shlexCore rest2 .normal (some ((cur.getD "").push d)) acc
    else
      shlexCore rest .normal (some ((cur.getD "").push c)) acc
  | c :: rest, .single, cur, acc =>
    if c = '\'' then shlexCore rest .normal cur acc
    else shlexCore rest .single (some ((cur.getD "").push c)) acc
  | c :: rest, .double, cur, acc =>
    if c = '"' then shlexCore rest .normal cur acc
    else if c = '\\' then
      match rest with
      | [] => .error "No escaped character"
      | d :: rest2 =>
        if d = '"' || d = '\\' then shlexCore rest2 .double (some ((cur.getD "").push d)) acc
        else shlexCore rest2 .double (some (((cur.getD "").push '\\').push d)) acc
    else
      shlexCore rest .double (some ((cur.getD "").push c)) acc

/-- `shlex.split(text)`: either the token list or a `ValueError` message. -/
def shlexSplit (s : String) : Except String (List String) :=
  shlexCore s.data .normal none []

/-- The overridden `Args.error` message normalization (commands.py lines
82-86): if the message starts with the word argument, split the message on
every colon, drop the first segment and rejoin the rest with single
spaces; then strip, collapse internal whitespace, and apply Python
`capitalize` (first character up, the rest lowercased). -/
def argsErrorMessage (message : String) : String :=
  let m1 := if strStartsWith message "argument"
    then String.intercalate " " ((splitOnChar ':' message).tail)
    else message
  let m2 := pyStrip m1
  let m3 := String.intercalate " " (pySplitWs m2)
  pyCapitalize m3

/-- `Args.error` (commands.py lines 80-87): normalize the parser message and
raise `ArgumentError` instead of exiting the process. -/
def argsError (message : String) : PyExc :=
  .argumentError (argsErrorMessage message)

/-- The keyword mapping `vars(parsed_args)` returned by argument parsing:
destination name to the supplied value (or `none` for an optional argument
left at its `None` default). -/
abbrev Kwargs := List (String × Option String)

/-- The `argparse` destination for a stored argument name: a long option
loses its leading dashes and has internal dashes turned to underscores, a
positional keeps its name. -/
def destName (a : String) : String :=
  if strStartsWith a "--" then charMap (fun c => if c = '-' then '_' else c) (strDrop a 2)
  else a

/-- `Args.__init__` never passes add_help=False, so every parser carries
argparse's automatic help option with the option strings -h and --help.
A token hitting it makes the help action print the usage text and raise
`SystemExit(0)`, bypassing the overridden `error` method.  (argparse's
long-option abbreviation, allow_abbrev, is outside the modelled subset;
no theorem below depends on option-token matching beyond these exact
strings.) -/
def isHelpOption (t : String) : Bool := t = "-h" || t = "--help"

/-- How a parse attempt fails: with a message routed through the parser's
`error` method, or by the help action exiting the process. -/
inductive ParseFailure where
  | message (m : String)
  | helpExit
deriving DecidableEq

/-- Match a command-line token against the declared long options of the
spec: either the bare flag (value taken from the next token) or the
inline form flag=value. -/
def matchOptional (spec : List String) (tok : String) : Option (String × Option String) :=
  spec.findSome? fun a =>
    if !strStartsWith a "--" then none
    else if tok = a then some (a, none)
    else if strStartsWith tok (a ++ "=") then some (a, some (strDrop tok (a.data.length + 1)))
    else none

/-- Core of the `argparse` subset this module exercises: walk the tokens,
binding long options and positionals in declaration order and collecting
unmatched tokens as extras.  Returns the bindings, the still unfilled
positionals, and the extras. -/
def parseWalk (spec : List String) :
    List String → List String → List (String × String) → List String →
    Except ParseFailure (List (String × String) × List String × List String)
  | [], pos, bound, extras => .ok (bound, pos, extras.reverse)
  | t :: rest, pos, bound, extras =>
    if strStartsWith t "-" && t != "-" then
      if isHelpOption t then .error .helpExit
      else
        match matchOptional spec t with
        | some (a, some v) => parseWalk spec rest pos ((destName a, v) :: bound) extras
        | some (a, none) =>
          match rest with
          | [] => .error (.message ("argument " ++ a ++ ": expected one argument"))
          | v :: rest2 => parseWalk spec rest2 pos ((destName a, v) :: bound) extras
        | none => parseWalk spec rest pos bound (t :: extras)
    else
      match pos with
      | p :: posRest => parseWalk spec rest posRest ((destName p, t) :: bound) extras
      | [] => parseWalk spec rest pos bound (t :: extras)

/-- The `Args` parser(commands.py lines 68-87): `prog` is the command name
passed to the constructor, `arguments` the stored argument names added by
`add_argument`, in order (long options carry their leading dashes). -/
structure Args where
  prog : String
  arguments : List String
deriving DecidableEq

/-- `Args.__init__` (commands.py lines 71-78): a fresh parser for the
command, with no arguments declared yet (the automatic -h and --help option
is always present, see `isHelpOption`, and is handled by the parse
functions rather than stored in `arguments`). -/
def argsInit (cmdname : String) : Args :=
  { prog := cmdname, arguments := [] }

/-- `argparse.ArgumentParser.parse_args` for the declared spec plus the
automatic help option: a help token exits via the help action, otherwise
a missing required positional or unrecognized leftover tokens produce the
raw (unnormalized) error message. -/
def argsParseRaw (a : Args) (argv : List String) : Except ParseFailure Kwargs :=
  match parseWalk a.arguments argv (a.arguments.filter (fun n => !strStartsWith n "-")) [] [] with
  | .error f => .error f
  | .ok (bound, unfilled, extras) =>
    if unfilled ≠ [] then
      .error (.message
        ("the following arguments are required: " ++ String.intercalate ", " unfilled))
    else if extras ≠ [] then
      .error (.message ("unrecognized arguments: " ++ String.intercalate " " extras))
    else
      .ok (a.arguments.map fun n =>
        (destName n, (bound.find? (fun p => p.1 == destName n)).map (fun p => p.2)))

/-- `parse_args` as seen by `Command.__call__`: a parser error message
goes through the overridden `Args.error`, so it raises `ArgumentError`
with the normalized message; the help action raises `SystemExit(0)`. -/
def argsParse (a : Args) (argv : List String) : Except PyExc Kwargs :=
  match argsParseRaw a argv with
  | .error (.message m) => .error (argsError m)
  | .error .helpExit => .error (.systemExit 0)
  | .ok k => .ok k

/-- A Python function object as the module sees it: its `__name__` and its
observable behaviour when finally called with the parsed keyword
arguments (with the bound instance already resolved, per
`Command.__call__` lines 113-117) - it returns (`none`) or raises an
exception (`some e`). -/
structure Func where
  name : String
  behavior : Kwargs → Option PyExc

/-- Observable events of one dispatch, in order: entering `cmd(args)`,
the target function returning after full execution, and a
`signals.exited.emit(status, message)`. -/
inductive Event where
  | call (name : String) (args : List String)
  | funcReturn (name : String)
  | emit (status : Nat) (msg : String)
deriving DecidableEq

/-- A registered command (commands.py lines 90-117). -/
structure Command where
  name : String
  func : Func
  instance_ : Option String
  mode : String
  args : Args

/-- `Command.__init__` (commands.py lines 102-107): stores name, function,
instance tag and mode, and creates a fresh `Args(name)`. -/
def commandInit (name : String) (func : Func) (instance_ : Option String) (mode : String) :
    Command :=
  { name := name, func := func, instance_ := instance_, mode := mode, args := argsInit name }

/-- `Command.__call__` (commands.py lines 109-117): parse the arguments,
then call the function.  Returns the events produced inside the call and
the exception raised, if any. -/
def Command.callRun (cmd : Command) (argv : List String) : List Event × Option PyExc :=
  match argsParse cmd.args argv with
  | .error e => ([], some e)
  | .ok kwargs =>
    match cmd.func.behavior kwargs with
    | none => ([Event.funcReturn cmd.name], none)
    | some e => ([], some e)

/-- The module level `registry` dict: association list where an assignment
shadows earlier entries (Python dict semantics for the observations the
module makes: membership, lookup, assignment). -/
abbrev Registry := List (String × Command)

/-- Dict lookup `registry[name]` and membership `name in registry`. -/
def regLookup (reg : Registry) (name : String) : Option Command :=
  (reg.find? (fun p => p.1 == name)).map (fun p => p.2)

/-- Dict assignment `registry[name] = cmd`. -/
def regSet (reg : Registry) (name : String) (cmd : Command) : Registry :=
  (name, cmd) :: reg

/-- Canonical command name (commands.py lines 141 and 164):
`func.__name__.lower().replace("_", "-")`. -/
def canonicalize (funcName : String) : String :=
  charMap (fun c => if c = '_' then '-' else c) (charMap Char.toLower funcName)

/-- Result of one `run` invocation: the events that happened, and the
exception propagating out of `run`, if any. -/
structure RunResult where
  events : List Event
  exc : Option PyExc
deriving DecidableEq

/-- Project an event to its outcome signal, when it is one. -/
def emitOf : Event → Option (Nat × String)
  | .emit s m => some (s, m)
  | _ => none

/-- The emitted outcome signals of a run, in order. -/
def emits (r : RunResult) : List (Nat × String) :=
  r.events.filterMap emitOf

/-- `run(text)` (commands.py lines 40-65): return on falsy (empty) text,
shell-split, take the first token as command name, look it up, call it,
and emit the outcome; `CommandError` and `ArgumentError` become outcome 1
with a name-prefixed message, `CommandWarning` becomes outcome 2 with the
bare message, anything else propagates. -/
def run (text : String) (reg : Registry) : RunResult :=
  if text = "" then ⟨[], none⟩
  else
    match shlexSplit text with
    | .error m => ⟨[], some (.valueError m)⟩
    | .ok [] => ⟨[], some .indexError⟩
    | .ok (cmdname :: args) =>
      match regLookup reg cmdname with
      | none => ⟨[.emit 1 (cmdname ++ ": unknown command")], none⟩
      | some cmd =>
        let r := cmd.callRun args
        let evs := Event.call cmdname args :: r.1
        match r.2 with
        | none => ⟨evs ++ [.emit 0 ""], none⟩
        | some (.argumentError m) => ⟨evs ++ [.emit 1 (cmdname ++ ": " ++ m)], none⟩
        | some (.commandError m) => ⟨evs ++ [.emit 1 (cmdname ++ ": " ++ m)], none⟩
        | some (.commandWarning m) => ⟨evs ++ [.emit 2 m], none⟩
        | some e => ⟨evs, some e⟩

/-- `register.__call__` (commands.py lines 163-167): canonicalize the
function name, create a fresh `Command` and store it, return the original
function. -/
def registerCall (instance_ : Option String) (mode : String) (func : Func) (reg : Registry) :
    Func × Registry :=
  let name := canonicalize func.name
  let cmd := commandInit name func instance_ mode
  (func, regSet reg name cmd)

/-- The stored argument name built by `argument.__init__` (commands.py
lines 130-132): long-option form when optional, bare name otherwise. -/
def argumentName (argname : String) (opt : Bool) : String :=
  if opt then "--" ++ argname else argname

/-- `argument.__call__` together with `argument._get_command` (commands.py
lines 134-146): look the function up in the registry by canonical name,
raising `ValueError` when it was never registered, otherwise add the
argument to the stored command's parser and return the function. -/
def argumentCall (argname : String) (opt : Bool) (func : Func) (reg : Registry) :
    Except PyExc (Func × Registry) :=
  let funcname := canonicalize func.name
  match regLookup reg funcname with
  | none =>
    .error (.valueError
      ("@commands.argument got called before (below) @commands.register for " ++ funcname))
  | some cmd =>
    let cmd2 : Command :=
      { cmd with args := { cmd.args with arguments := cmd.args.arguments ++ [argumentName argname opt] } }
    .ok (func, regSet reg funcname cmd2)

/-! Concrete functions and registries used to exercise the theorems. -/

/-- A command function that always returns normally. -/
def okFunc : Func := { name := "ok_func", behavior := fun _ => none }

/-- A command function that raises `CommandError` boom. -/
def errFunc : Func := { name := "err_func", behavior := fun _ => some (.commandError "boom") }

/-- A command function that raises `CommandWarning` careful. -/
def warnFunc : Func := { name := "warn_func", behavior := fun _ => some (.commandWarning "careful") }

/-- A command function that raises an exception outside the caught set. -/
def crashFunc : Func := { name := "crash_func", behavior := fun _ => some (.other "ZeroDivisionError") }

/-- A clashing function whose name canonicalizes to the same command name
as `okFunc`. -/
def dupFunc : Func := { name := "OK_FUNC", behavior := fun _ => some (.commandError "v2") }

/-- A scroll-like function used for the argument-declaration scenarios. -/
def scrollFunc : Func := { name := "scroll", behavior := fun _ => none }

/-- Registry with the four sample commands registered. -/
def regSample : Registry :=
  (registerCall none "global" crashFunc
    (registerCall none "global" warnFunc
      (registerCall none "global" errFunc
        (registerCall none "global" okFunc []).2).2).2).2

/-- The descriptor stored for `errFunc`. -/
def errCmd : Command := commandInit "err-func" errFunc none "global"

/-- The descriptor stored for `warnFunc`. -/
def warnCmd : Command := commandInit "warn-func" warnFunc none "global"

/-- The descriptor stored for `okFunc`. -/
def okCmd : Command := commandInit "ok-func" okFunc none "global"

/-- The descriptor stored for `crashFunc`. -/
def crashCmd : Command := commandInit "crash-func" crashFunc none "global"

/-- Registry with just `scrollFunc` registered. -/
def regScroll : Registry := (registerCall (some "image") "image" scrollFunc []).2

/-- `regScroll` after declaring the positional argument direction. -/
def regScrollArgs : Registry :=
  match argumentCall "direction" false scrollFunc regScroll with
  | .ok (_, r) => r
  | .error _ => regScroll

/-- The descriptor stored for `scrollFunc`. -/
def scrollCmd : Command := commandInit "scroll" scrollFunc (some "image") "image"

/-- The normalization of parser error messages exactly as the claim words
it: when the message starts with the word argument, only the leading
segment up to and including the first colon is removed (the remainder,
later colons included, is kept); runs of whitespace are collapsed to
single spaces; and the first letter is capitalized, the rest untouched. -/
def claimNormalize (message : String) : String :=
  let m1 := if strStartsWith message "argument"
    then String.intercalate ":" ((splitOnChar ':' message).tail)
    else message
  let m2 := String.intercalate " " (pySplitWs m1)
  match m2.data with
  | [] => ""
  | c :: cs => String.mk (c.toUpper :: cs)

/-- The normalization `Args.error` actually performs, per the amended
claim: when the message starts with the word argument it is split on
every colon, the first segment is dropped and the remaining segments are
rejoined with single spaces (so colons in the remainder become spaces);
then surrounding whitespace is stripped, internal whitespace runs are
collapsed to single spaces, and the message is capitalized Python-style:
first character uppercased, every later character lowercased. -/
def amendedNormalize (message : String) : String :=
  let m1 := if strStartsWith message "argument"
    then String.intercalate " " ((splitOnChar ':' message).drop 1)
    else message
  pyCapitalize (String.intercalate " " (pySplitWs (pyStrip m1)))

/-! Helper lemmas. -/

/-- Assigning into the registry makes the assigned descriptor the one
lookup finds. -/
theorem regLookup_regSet (reg : Registry) (n : String) (cmd : Command) :
    regLookup (regSet reg n cmd) n = some cmd := by
  simp [regLookup, regSet, List.find?]

/-- The shell split of the empty string is the empty token list. -/
theorem shlexSplit_empty : shlexSplit "" = .ok [] := rfl

/-- A line whose shell split has a first token is not the empty string. -/
theorem ne_empty_of_split_cons {text cmdname : String} {args : List String}
    (hsplit : shlexSplit text = .ok (cmdname :: args)) : text ≠ "" := by
  intro h
  rw [h, shlexSplit_empty] at hsplit
  simp at hsplit

/-- The events produced inside `Command.__call__` contain no emit: the
dispatcher alone emits outcomes. -/
theorem callRun_no_emit (cmd : Command) (argv : List String) :
    (cmd.callRun argv).1.filterMap emitOf = [] := by
  cases h : argsParse cmd.args argv with
  | error e => simp [Command.callRun, h]
  | ok kwargs =>
    cases hb : cmd.func.behavior kwargs with
    | none => simp [Command.callRun, h, hb, emitOf]
    | some e => simp [Command.callRun, h, hb, emitOf]

/-- With no arguments declared, the token walk binds nothing and collects
every non-option token as an extra. -/
theorem parseWalk_nil_spec (ts : List String)
    (hflag : ∀ t ∈ ts, strStartsWith t "-" = false) : ∀ extras : List String,
    parseWalk [] ts [] [] extras = .ok ([], [], extras.reverse ++ ts) := by
  induction ts with
  | nil => intro extras; simp [parseWalk]
  | cons t rest ih =>
    intro extras
    have h0 : strStartsWith t "-" = false := hflag t (by simp)
    have h : parseWalk [] (t :: rest) [] [] extras =
        if strStartsWith t "-" && t != "-" then
          (if isHelpOption t then .error .helpExit
           else parseWalk [] rest [] [] (t :: extras))
        else parseWalk [] rest [] [] (t :: extras) := rfl
    rw [h]
    simp only [h0, Bool.false_and, Bool.false_eq_true, if_false]
    rw [ih (fun x hx => hflag x (by simp [hx]))]
    simp

/-- A parser with no declared arguments rejects every nonempty list of
non-option tokens with the normalized unrecognized-arguments
`ArgumentError` (option-like tokens instead go through argparse's option
machinery, where -h and --help exit via the help action). -/
theorem emptySpec_parse_fails (name : String) (ts : List String) (hts : ts ≠ [])
    (hflag : ∀ t ∈ ts, strStartsWith t "-" = false) :
    argsParse (argsInit name) ts =
      .error (argsError ("unrecognized arguments: " ++ String.intercalate " " ts)) := by
  unfold argsParse argsParseRaw argsInit
  simp [parseWalk_nil_spec _ hflag, hts]

/-- On a parser with no declared arguments, the automatic help tokens
print help and raise `SystemExit(0)` instead of reaching the overridden
`error` method. -/
theorem emptySpec_help_exits (name : String) :
    argsParse (argsInit name) ["-h"] = .error (.systemExit 0) ∧
    argsParse (argsInit name) ["--help"] = .error (.systemExit 0) :=
  ⟨rfl, rfl⟩

/-!
The claims.
-/

/-- Claim C1 (code bug evidence): `run` is a no-op for the empty string,
but for a nonempty whitespace-only input the `if not text` guard does not
fire, `shlex.split` yields an empty token list, and `split[0]` raises
`IndexError` before any outcome is emitted - contradicting the claimed
no-op on whitespace-only input.  The registry is never touched either
way. -/
theorem run_empty_noop_but_whitespace_raises (reg : Registry) :
    run "" reg = ⟨[], none⟩ ∧ run "   " reg = ⟨[], some PyExc.indexError⟩ :=
  ⟨rfl, rfl⟩

/-- Claim C2: for a registered command whose invocation raises, `run`
emits outcome (1, name: message) for `ArgumentError` or `CommandError`,
and outcome (2, message) - without the command-name marker - for
`CommandWarning`.  In each case that emit is the only one. -/
theorem run_error_vs_warning_format (text cmdname : String) (args : List String)
    (reg : Registry) (cmd : Command) (m : String)
    (hsplit : shlexSplit text = .ok (cmdname :: args))
    (hreg : regLookup reg cmdname = some cmd) :
    (((cmd.callRun args).2 = some (.argumentError m) ∨
      (cmd.callRun args).2 = some (.commandError m)) →
      run text reg =
        ⟨Event.call cmdname args :: (cmd.callRun args).1 ++
          [Event.emit 1 (cmdname ++ ": " ++ m)], none⟩) ∧
    ((cmd.callRun args).2 = some (.commandWarning m) →
      run text reg =
        ⟨Event.call cmdname args :: (cmd.callRun args).1 ++ [Event.emit 2 m], none⟩) := by
  have ht : ¬ text = "" := ne_empty_of_split_cons hsplit
  constructor
  · rintro (h | h) <;> simp [run, ht, hsplit, hreg, h]
  · intro h
    simp [run, ht, hsplit, hreg, h]

/-- Witness for C2: a command raising `CommandError` boom yields outcome
(1, err-func: boom); one raising `CommandWarning` careful yields outcome
(2, careful) with no name marker. -/
theorem run_error_vs_warning_format_witness :
    run "err-func" regSample =
      ⟨Event.call "err-func" [] :: (errCmd.callRun []).1 ++
        [Event.emit 1 ("err-func" ++ ": " ++ "boom")], none⟩ ∧
    run "warn-func" regSample =
      ⟨Event.call "warn-func" [] :: (warnCmd.callRun []).1 ++ [Event.emit 2 "careful"], none⟩ :=
  ⟨(run_error_vs_warning_format "err-func" "err-func" [] regSample errCmd "boom" rfl rfl).1
      (Or.inr rfl),
   (run_error_vs_warning_format "warn-func" "warn-func" [] regSample warnCmd "careful" rfl
      rfl).2 rfl⟩

/-- Claim C3: when the first shell-split token is not a registered name,
`run` emits exactly the outcome (1, name: unknown command) and never
enters any command (the event trace holds only that emit). -/
theorem run_unknown_command (text cmdname : String) (args : List String) (reg : Registry)
    (hsplit : shlexSplit text = .ok (cmdname :: args))
    (hreg : regLookup reg cmdname = none) :
    run text reg = ⟨[Event.emit 1 (cmdname ++ ": unknown command")], none⟩ := by
  have ht : ¬ text = "" := ne_empty_of_split_cons hsplit
  simp [run, ht, hsplit, hreg]

/-- Witness for C3 at the spec scenario input nonexistent-cmd. -/
theorem run_unknown_command_witness :
    shlexSplit "nonexistent-cmd" = .ok ("nonexistent-cmd" :: []) ∧
    regLookup regSample "nonexistent-cmd" = none ∧
    run "nonexistent-cmd" regSample =
      ⟨[Event.emit 1 ("nonexistent-cmd" ++ ": unknown command")], none⟩ :=
  ⟨rfl, rfl, run_unknown_command "nonexistent-cmd" "nonexistent-cmd" [] regSample rfl rfl⟩

/-- Claim C4: when parsing succeeds and the target returns normally, `run`
emits exactly the outcome (0, empty message), and the event trace shows
the target returning before the emit happens. -/
theorem run_success_emits_zero (text cmdname : String) (args : List String)
    (reg : Registry) (cmd : Command) (kwargs : Kwargs)
    (hsplit : shlexSplit text = .ok (cmdname :: args))
    (hreg : regLookup reg cmdname = some cmd)
    (hparse : argsParse cmd.args args = .ok kwargs)
    (hfunc : cmd.func.behavior kwargs = none) :
    run text reg =
      ⟨[Event.call cmdname args, Event.funcReturn cmd.name, Event.emit 0 ""], none⟩ := by
  have ht : ¬ text = "" := ne_empty_of_split_cons hsplit
  have hcall : cmd.callRun args = ([Event.funcReturn cmd.name], none) := by
    simp [Command.callRun, hparse, hfunc]
  simp [run, ht, hsplit, hreg, hcall]

/-- Witness for C4: dispatching ok-func succeeds with outcome (0, empty). -/
theorem run_success_emits_zero_witness :
    argsParse okCmd.args [] = .ok [] ∧ okFunc.behavior [] = none ∧
    run "ok-func" regSample =
      ⟨[Event.call "ok-func" [], Event.funcReturn okCmd.name, Event.emit 0 ""], none⟩ :=
  ⟨rfl, rfl, run_success_emits_zero "ok-func" "ok-func" [] regSample okCmd [] rfl rfl rfl rfl⟩

/-- Claim C5: an exception that is not `ArgumentError`, `CommandError` or
`CommandWarning` is not caught: it leaves `run` unchanged and no outcome
at all is emitted. -/
theorem run_uncaught_exception_propagates (text cmdname : String) (args : List String)
    (reg : Registry) (cmd : Command) (e : PyExc)
    (hsplit : shlexSplit text = .ok (cmdname :: args))
    (hreg : regLookup reg cmdname = some cmd)
    (hexc : (cmd.callRun args).2 = some e)
    (huncaught : isCaught e = false) :
    run text reg = ⟨Event.call cmdname args :: (cmd.callRun args).1, some e⟩ ∧
    emits (run text reg) = [] := by
  have ht : ¬ text = "" := ne_empty_of_split_cons hsplit
  have h1 : run text reg = ⟨Event.call cmdname args :: (cmd.callRun args).1, some e⟩ := by
    cases e with
    | argumentError m => simp [isCaught] at huncaught
    | commandError m => simp [isCaught] at huncaught
    | commandWarning m => simp [isCaught] at huncaught
    | indexError => simp [run, ht, hsplit, hreg, hexc]
    | valueError m => simp [run, ht, hsplit, hreg, hexc]
    | systemExit c => simp [run, ht, hsplit, hreg, hexc]
    | other m => simp [run, ht, hsplit, hreg, hexc]
  refine ⟨h1, ?_⟩
  rw [h1]
  have h2 := callRun_no_emit cmd args
  simp [emits, emitOf, h2]

/-- Witness for C5: a ZeroDivisionError-like exception propagates out of
`run` unchanged with nothing emitted. -/
theorem run_uncaught_exception_propagates_witness :
    (crashCmd.callRun []).2 = some (PyExc.other "ZeroDivisionError") ∧
    isCaught (PyExc.other "ZeroDivisionError") = false ∧
    (run "crash-func" regSample =
      ⟨Event.call "crash-func" [] :: (crashCmd.callRun []).1,
        some (PyExc.other "ZeroDivisionError")⟩ ∧
     emits (run "crash-func" regSample) = []) :=
  ⟨rfl, rfl, run_uncaught_exception_propagates "crash-func" "crash-func" [] regSample crashCmd
    (PyExc.other "ZeroDivisionError") rfl rfl rfl rfl⟩

/-- Counterexample for C6: on the realistic parser message argument
level: invalid level value: 'ABC' the handler does not produce the
claimed normalization (which would keep the second colon and the
uppercase text): the code turns the later colon into a space and
lowercases everything after the first character. -/
theorem args_error_counterexample :
    argsError "argument level: invalid level value: 'ABC'" ≠
      PyExc.argumentError (claimNormalize "argument level: invalid level value: 'ABC'") := by
  decide

/-- Claim C6 as amended: `Args.error` always raises `ArgumentError` (never
exits), and its message is the amended normalization: split on every
colon with the first segment dropped and the rest rejoined by spaces when
the message starts with argument, whitespace stripped and collapsed, then
first character uppercased with the remaining characters lowercased. -/
theorem args_error_normalization_amended (message : String) :
    argsError message = PyExc.argumentError (amendedNormalize message) := by
  unfold argsError argsErrorMessage amendedNormalize
  rw [List.drop_one]

/-- Claim C7: `register` stores the command under the function name
lowercased with underscores turned to hyphens, with a fresh empty
argument spec, and hands back the original function unchanged. -/
theorem register_stores_canonical_fresh (instance_ : Option String) (mode : String)
    (func : Func) (reg : Registry) :
    (registerCall instance_ mode func reg).1 = func ∧
    regLookup (registerCall instance_ mode func reg).2
        (charMap (fun c => if c = '_' then '-' else c) (charMap Char.toLower func.name)) =
      some { name := canonicalize func.name, func := func, instance_ := instance_,
             mode := mode, args := { prog := canonicalize func.name, arguments := [] } } :=
  ⟨rfl, regLookup_regSet reg (canonicalize func.name) _⟩

/-- Claim C8: registering a second function with the same canonical name
silently replaces the first descriptor; `register` is total (no error)
and lookup afterwards yields the later descriptor. -/
theorem reregistration_last_write_wins (f g : Func) (i1 i2 : Option String)
    (m1 m2 : String) (reg : Registry)
    (hname : canonicalize f.name = canonicalize g.name) :
    regLookup (registerCall i2 m2 g (registerCall i1 m1 f reg).2).2 (canonicalize f.name) =
      some (commandInit (canonicalize g.name) g i2 m2) := by
  rw [hname]
  exact regLookup_regSet _ _ _

/-- Witness for C8: ok_func and OK_FUNC collide on the canonical name
ok-func and the second registration wins. -/
theorem reregistration_last_write_wins_witness :
    canonicalize okFunc.name = canonicalize dupFunc.name ∧
    regLookup (registerCall none "global" dupFunc (registerCall none "global" okFunc []).2).2
        (canonicalize okFunc.name) =
      some (commandInit (canonicalize dupFunc.name) dupFunc none "global") :=
  ⟨by decide, reregistration_last_write_wins okFunc dupFunc none none "global" "global" []
    (by decide)⟩

/-- Claim C9: declaring an argument for a function with no registered
descriptor fails with the configuration `ValueError` and creates nothing;
with a descriptor present, the declaration is appended to that
descriptor's argument spec. -/
theorem argument_requires_registration (argname : String) (opt : Bool)
    (func : Func) (reg : Registry) :
    (regLookup reg (canonicalize func.name) = none →
      argumentCall argname opt func reg =
        .error (.valueError
          ("@commands.argument got called before (below) @commands.register for " ++
            canonicalize func.name))) ∧
    (∀ cmd, regLookup reg (canonicalize func.name) = some cmd →
      argumentCall argname opt func reg =
        .ok (func, regSet reg (canonicalize func.name)
          { cmd with args := { cmd.args with
              arguments := cmd.args.arguments ++ [argumentName argname opt] } })) := by
  constructor
  · intro h
    simp [argumentCall, h]
  · intro cmd h
    simp [argumentCall, h]

/-- Witness for C9: declaring direction before registering scroll fails;
after registration the declaration lands in the stored spec. -/
theorem argument_requires_registration_witness :
    regLookup ([] : Registry) (canonicalize scrollFunc.name) = none ∧
    argumentCall "direction" false scrollFunc [] =
      .error (.valueError
        ("@commands.argument got called before (below) @commands.register for " ++
          canonicalize scrollFunc.name)) ∧
    regLookup regScroll (canonicalize scrollFunc.name) = some scrollCmd ∧
    argumentCall "direction" false scrollFunc regScroll =
      .ok (scrollFunc, regSet regScroll (canonicalize scrollFunc.name)
        { scrollCmd with args := { scrollCmd.args with
            arguments := scrollCmd.args.arguments ++ [argumentName "direction" false] } }) :=
  ⟨rfl, (argument_requires_registration "direction" false scrollFunc []).1 rfl,
   rfl, (argument_requires_registration "direction" false scrollFunc regScroll).2 scrollCmd rfl⟩

/-- Claim C10: re-registering a name installs a descriptor whose argument
spec is empty, so argument tokens previously accepted now make the
dispatch-side call raise the unrecognized-arguments `ArgumentError`
without ever reaching the target function.  The dispatch conjunct covers
every nonempty list of non-option tokens (no token starting with a dash):
option-like tokens instead hit argparse's option machinery, where the
automatic -h and --help prints help and raises `SystemExit(0)` - also not an
acceptance of a previously declared argument. -/
theorem reregistration_discards_argument_spec (i : Option String) (m : String)
    (f : Func) (reg : Registry) (ts : List String) (hts : ts ≠ [])
    (hflag : ∀ t ∈ ts, strStartsWith t "-" = false) :
    regLookup (registerCall i m f reg).2 (canonicalize f.name) =
      some (commandInit (canonicalize f.name) f i m) ∧
    (commandInit (canonicalize f.name) f i m).args.arguments = [] ∧
    (commandInit (canonicalize f.name) f i m).callRun ts =
      ([], some (argsError ("unrecognized arguments: " ++ String.intercalate " " ts))) := by
  refine ⟨regLookup_regSet _ _ _, rfl, ?_⟩
  unfold Command.callRun
  rw [show (commandInit (canonicalize f.name) f i m).args = argsInit (canonicalize f.name)
      from rfl]
  rw [emptySpec_parse_fails _ ts hts hflag]

/-- Witness for C10: the registry holds scroll with the declared argument
direction; re-registering scroll leaves an empty spec and dispatching the
previously valid token left now fails to parse. -/
theorem reregistration_discards_argument_spec_witness :
    regLookup regScrollArgs (canonicalize scrollFunc.name) =
      some { scrollCmd with args := { prog := "scroll", arguments := ["direction"] } } ∧
    (["left"] : List String) ≠ [] ∧
    (∀ t ∈ (["left"] : List String), strStartsWith t "-" = false) ∧
    (regLookup (registerCall (some "image") "image" scrollFunc regScrollArgs).2
        (canonicalize scrollFunc.name) =
      some (commandInit (canonicalize scrollFunc.name) scrollFunc (some "image") "image") ∧
    (commandInit (canonicalize scrollFunc.name) scrollFunc
        (some "image") "image").args.arguments = [] ∧
    (commandInit (canonicalize scrollFunc.name) scrollFunc (some "image") "image").callRun
        ["left"] =
      ([], some (argsError ("unrecognized arguments: " ++
        String.intercalate " " ["left"])))) :=
  ⟨rfl, by decide, by decide,
   reregistration_discards_argument_spec (some "image") "image" scrollFunc regScrollArgs
     ["left"] (by decide) (by decide)⟩

end Vimiv
